import Mathlib

/-!
Verification of the IRM appointment-slot checker (src/src/main.py, src/IRMslots.py).

The checker polls a scheduling API, re-authenticates once per cycle on a
401/403 response when auto-login is enabled, normalizes the JSON body into an
availability count plus formatted slot lines, and notifies when slots exist.
This file gives a shallow embedding of that logic: JSON values are an
inductive type, Python exceptions are `Except`, the two HTTP requests of a
cycle and the login call are supplied as oracle values, and one polling cycle
(`check_availability`) is a pure function on those inputs.
-/

namespace IRM

/-- JSON values as produced by `response.json()` in Python: `null`, booleans,
integers, strings, arrays and objects (association lists with distinct keys,
in insertion order). -/
inductive Json where
  | null : Json
  | bool (b : Bool) : Json
  | num (n : Int) : Json
  | str (s : String) : Json
  | arr (xs : List Json) : Json
  | obj (fields : List (String × Json)) : Json
deriving Repr

/-- Python truthiness of a value: `None`, `False`, `0`, empty string, empty
list and empty dict are falsy; everything else is truthy. -/
def truthy : Json → Bool
  | .null => false
  | .bool b => b
  | .num n => n != 0
  | .str s => s ≠ ""
  | .arr xs => !xs.isEmpty
  | .obj fs => !fs.isEmpty

/-- Python `value == 0` on a JSON value: `0 == 0` and `False == 0` are true
(bool is an int subclass); every other value compares unequal to `0` without
raising. -/
def pyEqZero : Json → Bool
  | .num n => n == 0
  | .bool b => !b
  | _ => false

/-- Python exceptions distinguished by the embedding. -/
inductive PyExc where
  | attributeError : PyExc
  | typeError : PyExc
deriving DecidableEq, Repr

/-- Python `value > 0`: defined for ints (and bools, with `True = 1`,
`False = 0`); comparing any other value with an int raises `TypeError`. -/
def pyGtZero : Json → Except PyExc Bool
  | .num n => .ok (decide (0 < n))
  | .bool b => .ok b
  | _ => .error .typeError

/-- Python iteration over a value: lists yield their elements, strings their
characters (as one-character strings), dicts their keys; `None`, booleans and
numbers are not iterable and raise `TypeError`. -/
def pyIter : Json → Except PyExc (List Json)
  | .arr xs => .ok xs
  | .str s => .ok (s.toList.map fun c => Json.str (String.mk [c]))
  | .obj fs => .ok (fs.map fun p => Json.str p.1)
  | _ => .error .typeError

/-- `isinstance(value, dict)`. -/
def isDict : Json → Bool
  | .obj _ => true
  | _ => false

/-- Python `a or b`: the first operand if it is truthy, else the second. -/
def pyOr (a b : Json) : Json :=
  if truthy a then a else b

/-- A single quote character, as Python `repr` uses around strings. -/
def pyQuote : String := "\x27"

mutual

/-- Python `repr` of a value (string quoting inside containers; quote escaping
inside strings is not modelled, no claim exercises it). -/
def pyRepr : Json → String
  | .null => "None"
  | .bool b => if b then "True" else "False"
  | .num n => toString n
  | .str s => pyQuote ++ s ++ pyQuote
  | .arr xs => "[" ++ pyReprList xs ++ "]"
  | .obj fs => "\x7b" ++ pyReprObj fs ++ "\x7d"

/-- Comma-separated `repr`s of list elements. -/
def pyReprList : List Json → String
  | [] => ""
  | [j] => pyRepr j
  | j :: js => pyRepr j ++ ", " ++ pyReprList js

/-- Comma-separated `repr`s of dict entries. -/
def pyReprObj : List (String × Json) → String
  | [] => ""
  | [(k, v)] => pyQuote ++ k ++ pyQuote ++ ": " ++ pyRepr v
  | (k, v) :: fs => pyQuote ++ k ++ pyQuote ++ ": " ++ pyRepr v ++ ", " ++ pyReprObj fs

end

/-- Python `str` of a value, as an f-string interpolates it: strings verbatim,
everything else as `repr`-based text (`str` and `repr` agree off strings). -/
def pyStr : Json → String
  | .str s => s
  | j => pyRepr j

/-- First value stored under a key in a dict's entry list (Python dict keys
are unique, so first match is the dict lookup). -/
def getField : List (String × Json) → String → Option Json
  | [], _ => none
  | (k, v) :: fs, key => if k = key then some v else getField fs key

/-- `data.get(key)`: `None`-or-value on a dict, `AttributeError` on any
non-dict value. -/
def dictGet : Json → String → Except PyExc (Option Json)
  | .obj fs, key => .ok (getField fs key)
  | _, _ => .error .attributeError

/-- `d[key] = v` on an entry list: replace the value of an existing key in
place, or append the new key at the end (Python dict insertion order). -/
def setField : List (String × Json) → String → Json → List (String × Json)
  | [], key, v => [(key, v)]
  | (k, w) :: fs, key, v =>
      if k = key then (key, v) :: fs else (k, w) :: setField fs key v

/-- `data[key] = v` on a JSON value; only ever applied to objects. -/
def objSet (j : Json) (key : String) (v : Json) : Json :=
  match j with
  | .obj fs => .obj (setField fs key v)
  | j => j

/-- Truthiness of an `Optional[str]`: present and non-empty. -/
def truthyOptStr : Option String → Bool
  | none => false
  | some s => s ≠ ""

/-- How an f-string renders an `Optional[str]`: `None` becomes the text
`"None"`. -/
def pyOptStr : Option String → String
  | none => "None"
  | some s => s

/-- `SessionCookies` of src/src/auth.py: the three cookie values an automated
login returns. -/
structure SessionCookies where
  session_key : String
  user_session_key : String
  aspnet_cookies : String
deriving DecidableEq, Repr

/-- `SessionCookies.is_valid`: all three cookies non-empty. -/
def SessionCookies.is_valid (c : SessionCookies) : Bool :=
  c.session_key ≠ "" && c.user_session_key ≠ "" && c.aspnet_cookies ≠ ""

/-- `Config` of src/src/main.py: the fields the checker reads. The three
cookie fields are `Optional[str]` (auto-login mode may start without them). -/
structure Config where
  api_url : String
  session_key : Option String
  user_session_key : Option String
  aspnet_cookies : Option String
  exam_type_id : String
  exam_id : String
  patient_birth_date : String
  poll_interval : Int
  poll_interval_jitter : Int
  log_level : String
  log_file : String
  notifications_enabled : Bool
  min_date : Option String
  exam_name : Option String
  location_name : Option String
  office_place_ids : Option String
  slack_token : Option String
  slack_channel_id : Option String
  auto_login_enabled : Bool
  easydoct_email : Option String
  easydoct_password : Option String
  exam_url : Option String
deriving DecidableEq, Repr

/-- The `Cookie` header value `Config.get_headers` composes:
`SessionKey=<k>; UserSessionKey=<k>; .AspNet.Cookies=<k>`. -/
def cookieHeader (c : Config) : String :=
  "SessionKey=" ++ pyOptStr c.session_key ++
  "; UserSessionKey=" ++ pyOptStr c.user_session_key ++
  "; .AspNet.Cookies=" ++ pyOptStr c.aspnet_cookies

/-- `Config.get_headers`: the static browser-mimicking headers plus the
composed cookie value. -/
def get_headers (c : Config) : List (String × String) :=
  [("Host", "www.easydoct.com"),
   ("User-Agent", "Mozilla/5.0 (Windows NT 10.0; Win64; x64; rv:142.0) Gecko/20100101 Firefox/142.0"),
   ("Accept", "application/json"),
   ("Accept-Language", "en-US,en;q=0.5"),
   ("Accept-Encoding", "gzip, deflate, br, zstd"),
   ("Content-Type", "application/json"),
   ("X-Requested-With", "XMLHttpRequest"),
   ("Origin", "https://www.easydoct.com"),
   ("DNT", "1"),
   ("Connection", "keep-alive"),
   ("Referer", "https://www.easydoct.com/rdv/gie-irldr-imagerie-rennes"),
   ("Sec-Fetch-Dest", "empty"),
   ("Sec-Fetch-Mode", "cors"),
   ("Sec-Fetch-Site", "same-origin"),
   ("Sec-GPC", "1"),
   ("Cookie", cookieHeader c)]

/-- `Config.get_payload`, with `datetime.today()` passed in as `today` (used
only when `min_date` is unset). -/
def get_payload (c : Config) (today : String) : List (String × Json) :=
  [("examTypeId", Json.str c.exam_type_id),
   ("minDate", Json.str (match c.min_date with | some d => d | none => today)),
   ("examId", Json.str c.exam_id),
   ("examSetId", Json.null),
   ("practitionerId", Json.null),
   ("officePlaceIds", match c.office_place_ids with
                      | some s => Json.str s
                      | none => Json.null),
   ("isMobileView", Json.null),
   ("patientBirthDate", Json.str c.patient_birth_date),
   ("officePlaceHubId", Json.null)]

/-- Outcome of one `get_session_cookies` call, supplied as an oracle:
the call raised, returned `None`, or returned a `SessionCookies` value
(possibly invalid). -/
inductive LoginResult where
  | raised : LoginResult
  | failure : LoginResult
  | success (ck : SessionCookies) : LoginResult
deriving DecidableEq, Repr

/-- `all([email, password, exam_url])`: every credential present and
non-empty. -/
def credsPresent (c : Config) : Bool :=
  truthyOptStr c.easydoct_email && truthyOptStr c.easydoct_password &&
    truthyOptStr c.exam_url

/-- What `_perform_auto_login` produces: whether it returned `True`, the
(possibly cookie-updated) config, and how many `get_session_cookies` calls it
made. -/
structure LoginOutcome where
  success : Bool
  config : Config
  calls : Nat
deriving DecidableEq, Repr

/-- `IRMSlotChecker._perform_auto_login`: refuse when auto-login is disabled
or a credential is missing; otherwise call `get_session_cookies` once and, on
a valid cookie set, overwrite the config's three cookie fields. -/
def perform_auto_login (cfg : Config) (lr : LoginResult) : LoginOutcome :=
  if cfg.auto_login_enabled = false then ⟨false, cfg, 0⟩
  else if credsPresent cfg = false then ⟨false, cfg, 0⟩
  else
    match lr with
    | .raised => ⟨false, cfg, 1⟩
    | .failure => ⟨false, cfg, 1⟩
    | .success ck =>
        if ck.is_valid then
          ⟨true,
           { cfg with session_key := some ck.session_key,
                      user_session_key := some ck.user_session_key,
                      aspnet_cookies := some ck.aspnet_cookies }, 1⟩
        else ⟨false, cfg, 1⟩

/-- One appointment entry's contribution to the fallback availability lines:
an object whose day label (`dayAbbr` or `day`) and time label (`startTime` or
`start`) are both truthy yields `"<day> <time>"`; any other entry is skipped. -/
def entryLine : Json → Option String
  | .obj fs =>
      let day_label := pyOr ((getField fs "dayAbbr").getD .null)
                            ((getField fs "day").getD .null)
      let time_label := pyOr ((getField fs "startTime").getD .null)
                             ((getField fs "start").getD .null)
      if truthy day_label && truthy time_label then
        some (pyStr day_label ++ " " ++ pyStr time_label)
      else none
  | _ => none

/-- The `availability_lines` fallback loop over the `appointments` entries. -/
def buildLines (xs : List Json) : List String :=
  xs.filterMap entryLine

/-- The Python values live at line 341 of src/src/main.py: the final
`availability_count` and `availability_lines`, and `data` after its in-place
mutations (the mutated `data` is what the notification receives). -/
structure NormState where
  count : Json
  lines : Json
  data : Json
deriving Repr

/-- Lines 313–339 of `check_availability`: read `availabilityCount` (default
`0`), `appointments` and `availabilityLines` (default `[]`); when the count
compares equal to `0` and `appointments` is truthy, recount as the number of
dict entries (writing it back into `data` when non-zero); when the lines value
is falsy and `appointments` is truthy, rebuild the lines from the label-complete
dict entries (writing them back when non-empty), else re-read them from `data`.
Raises `AttributeError` on a non-dict body and `TypeError` on a truthy
non-iterable `appointments`. -/
def normalizeData (data : Json) : Except PyExc NormState :=
  match dictGet data "availabilityCount" with
  | .error e => .error e
  | .ok cnt0 =>
  match dictGet data "appointments" with
  | .error e => .error e
  | .ok app0 =>
  match dictGet data "availabilityLines" with
  | .error e => .error e
  | .ok lns0 =>
    let availability_count := cnt0.getD (Json.num 0)
    let appointments := app0.getD Json.null
    let availability_lines := lns0.getD (Json.arr [])
    let step1 : Except PyExc (Json × Json) :=
      if pyEqZero availability_count && truthy appointments then
        match pyIter appointments with
        | .error e => .error e
        | .ok xs =>
            let n := (xs.filter isDict).length
            .ok (Json.num n,
                 if n ≠ 0 then objSet data "availabilityCount" (Json.num n)
                 else data)
      else .ok (availability_count, data)
    match step1 with
    | .error e => .error e
    | .ok (count1, data1) =>
      if !truthy availability_lines && truthy appointments then
        match pyIter appointments with
        | .error e => .error e
        | .ok xs =>
            let ls := buildLines xs
            let linesJ := Json.arr (ls.map Json.str)
            let data2 := if ls ≠ [] then objSet data1 "availabilityLines" linesJ
                         else data1
            .ok ⟨count1, linesJ, data2⟩
      else
        match dictGet data1 "availabilityLines" with
        | .error e => .error e
        | .ok l => .ok ⟨count1, l.getD (Json.arr []), data1⟩

/-- The notification message built on the `availability_count > 0` branch. -/
def foundMessage (count : Json) : String :=
  "Found " ++ pyStr count ++ " available appointment slot(s)!"

/-- Lines 341–354 of `check_availability`: compare the count with `0` (which
can raise `TypeError` on a non-numeric value), on the positive branch iterate
the lines for logging (which can raise `TypeError` on a non-iterable value)
and call `notification_service.send(message, data)` once, returning `True`;
otherwise return `False` with no notification. -/
def decideStep (ns : NormState) : Except PyExc (Bool × List (String × Json)) :=
  match pyGtZero ns.count with
  | .error e => .error e
  | .ok true =>
      match pyIter ns.lines with
      | .error e => .error e
      | .ok _ => .ok (true, [(foundMessage ns.count, ns.data)])
  | .ok false => .ok (false, [])

/-- One `requests.post` outcome, supplied as an oracle: the call raised a
`RequestException`, or returned a status code and a body (`none` when
`response.json()` would raise). -/
inductive HttpResult where
  | exc : HttpResult
  | resp (status : Nat) (body : Option Json) : HttpResult
deriving Repr

/-- The spec's per-cycle outcome, read off `check_availability`'s return
sites: `found` is the `return True` at line 351, `notFound` the
`return False` at line 354 after "No slots available", and `error` every
other `return False` (auth failure, non-200 status, exception handlers). -/
inductive Outcome where
  | found : Outcome
  | notFound : Outcome
  | error : Outcome
deriving DecidableEq, Repr

/-- Everything one `check_availability` call produces: its boolean return
value, the spec-level outcome, the `notification_service.send` calls it made,
the number of `get_session_cookies` calls, the `Cookie` header of every
`requests.post` it issued (in order), and the checker state it leaves behind
(`self.config` and `self._login_attempted`). -/
structure CycleResult where
  retval : Bool
  outcome : Outcome
  notifications : List (String × Json)
  logins : Nat
  cookies_sent : List String
  config : Config
  login_attempted : Bool
deriving Repr

/-- Lines 309–361: with the final response in hand, a non-200 status or an
unparseable body or an exception raised by normalization or the notify step
ends the cycle with `False`; otherwise the normalized count decides between
`Found` and `NotFound`. -/
def finish (cfg : Config) (flag : Bool) (sent : List String) (logins : Nat)
    (status : Nat) (body : Option Json) : CycleResult :=
  if status ≠ 200 then ⟨false, .error, [], logins, sent, cfg, flag⟩
  else
    match body with
    | none => ⟨false, .error, [], logins, sent, cfg, flag⟩
    | some data =>
        match normalizeData data with
        | .error _ => ⟨false, .error, [], logins, sent, cfg, flag⟩
        | .ok ns =>
            match decideStep ns with
            | .error _ => ⟨false, .error, [], logins, sent, cfg, flag⟩
            | .ok (found, notes) =>
                ⟨found, if found then .found else .notFound, notes,
                 logins, sent, cfg, flag⟩

/-- `IRMSlotChecker.check_availability` as a function of the checker state
(`cfg`, `flag` = `self._login_attempted`) and the cycle's oracles: the first
request's outcome `r1`, the retried request's outcome `r2` (consulted only
when a retry happens) and the login outcome `lr`. On a 401/403 first status
with auto-login enabled and the flag unset, the flag is set, one auto-login is
attempted, and on login success the request is retried once with the updated
cookies, the flag resetting only when the retry returns 200. -/
def check_availability (cfg : Config) (flag : Bool) (r1 r2 : HttpResult)
    (lr : LoginResult) : CycleResult :=
  let ck1 := cookieHeader cfg
  match r1 with
  | .exc => ⟨false, .error, [], 0, [ck1], cfg, flag⟩
  | .resp s1 b1 =>
      if s1 = 401 ∨ s1 = 403 then
        if cfg.auto_login_enabled && !flag then
          let lo := perform_auto_login cfg lr
          if lo.success then
            let ck2 := cookieHeader lo.config
            match r2 with
            | .exc => ⟨false, .error, [], lo.calls, [ck1, ck2], lo.config, true⟩
            | .resp s2 b2 =>
                let flag2 := if s2 = 200 then false else true
                finish lo.config flag2 [ck1, ck2] lo.calls s2 b2
          else ⟨false, .error, [], lo.calls, [ck1], lo.config, true⟩
        else ⟨false, .error, [], 0, [ck1], cfg, flag⟩
      else finish cfg flag [ck1] 0 s1 b1

/-- The randomized sleep computed at lines 379–384 of `IRMSlotChecker.run`:
`random.uniform(base - jitter, base + jitter)` when `jitter > 0` — modelled as
`(base - jitter) + 2 * jitter * u` for the generator's draw `u ∈ [0, 1]` —
and exactly `base` otherwise. The source applies no clamp at 0. -/
def sleep_interval (base jitter : Int) (u : Rat) : Rat :=
  if 0 < jitter then ((base : Rat) - (jitter : Rat)) + 2 * (jitter : Rat) * u
  else (base : Rat)

/-- What a run-loop iteration does with the cycle's boolean result. -/
inductive LoopControl where
  | continueLoop : LoopControl
  | breakLoop : LoopControl
deriving DecidableEq, Repr

/-- Lines 375–378 of src/src/main.py's `run`: a `True` cycle result only logs
"Continuing to monitor"; the loop never breaks on a result, whatever the
configuration holds. -/
def run_found_policy (c : Config) (found : Bool) : LoopControl :=
  LoopControl.continueLoop

namespace IRMslots

/-- `Config` of the root-level IRMslots.py variant: manual cookies only, no
jitter and no auto-login fields. -/
structure Config where
  api_url : String
  session_key : String
  user_session_key : String
  aspnet_cookies : String
  exam_type_id : String
  exam_id : String
  patient_birth_date : String
  poll_interval : Int
  log_level : String
  log_file : String
  notifications_enabled : Bool
  slack_token : Option String
  slack_channel_id : Option String
deriving DecidableEq, Repr

/-- Lines 180–185 of IRMslots.py's `run`: a `True` cycle result logs
"Stopping checker." and breaks the loop, whatever the configuration holds. -/
def run_found_policy (c : Config) (found : Bool) : LoopControl :=
  if found then LoopControl.breakLoop else LoopControl.continueLoop

end IRMslots

/-- A concrete auto-login configuration: credentials present, stale manual
cookies, notifications on. -/
def cfgAuto : Config :=
  { api_url := "https://www.easydoct.com/api/rdv/getRdvDayAvailabilities",
    session_key := some "old_sk", user_session_key := some "old_usk",
    aspnet_cookies := some "old_ac", exam_type_id := "193", exam_id := "2702",
    patient_birth_date := "1990-01-01", poll_interval := 60,
    poll_interval_jitter := 10, log_level := "INFO", log_file := "irm_slots.log",
    notifications_enabled := true, min_date := none, exam_name := none,
    location_name := none, office_place_ids := none, slack_token := some "tok",
    slack_channel_id := some "chan", auto_login_enabled := true,
    easydoct_email := some "user@example.com", easydoct_password := some "pw",
    exam_url := some "https://www.easydoct.com/rdv/example" }

/-- A concrete manual-cookie configuration: auto-login disabled, every
optional field empty, notifications off. -/
def cfgManual : Config :=
  { api_url := "https://www.easydoct.com/api/rdv/getRdvDayAvailabilities",
    session_key := some "sk", user_session_key := some "usk",
    aspnet_cookies := some "ac", exam_type_id := "193", exam_id := "2702",
    patient_birth_date := "1990-01-01", poll_interval := 30,
    poll_interval_jitter := 0, log_level := "DEBUG", log_file := "other.log",
    notifications_enabled := false, min_date := some "20261101",
    exam_name := some "IRM", location_name := some "Rennes",
    office_place_ids := some "7", slack_token := none, slack_channel_id := none,
    auto_login_enabled := false, easydoct_email := none,
    easydoct_password := none, exam_url := none }

/-- A fresh, valid cookie set as a successful auto-login returns it. -/
def ckNew : SessionCookies := ⟨"new_sk", "new_usk", "new_ac"⟩

/-- Cycle 1 of the C1 trace: the first request gets 401, auto-login succeeds,
and the retried request returns 500 (so the flag is not reset). -/
def C1cycle1 : CycleResult :=
  check_availability cfgAuto false (HttpResult.resp 401 none)
    (HttpResult.resp 500 (some (Json.obj []))) (LoginResult.success ckNew)

/-- Cycle 2 of the C1 trace: a fresh cycle on the same checker gets 401
again, with auto-login still configured and a login that would succeed. -/
def C1cycle2 : CycleResult :=
  check_availability C1cycle1.config C1cycle1.login_attempted
    (HttpResult.resp 401 none) (HttpResult.resp 200 (some (Json.obj [])))
    (LoginResult.success ckNew)

/-- C2's counterexample body: one `appointments` entry that is an object but
carries neither a day nor a time label. -/
def C2body : Json :=
  Json.obj [("appointments", Json.arr [Json.obj [("x", Json.num 1)]])]

/-- C2's witness appointments list: one label-complete object entry and one
non-object sentinel. -/
def C2witnessApps : List Json :=
  [Json.obj [("dayAbbr", Json.str "3 mars"), ("startTime", Json.str "09:30")],
   Json.str "None"]

/-- C7's counterexample body: a positive pass-through count next to a
non-iterable `availabilityLines` value. -/
def C7body : Json :=
  Json.obj [("availabilityCount", Json.num 2), ("availabilityLines", Json.num 5)]

/-- C7's witness body: a positive pass-through count with a normal lines
list. -/
def C7wbody : Json :=
  Json.obj [("availabilityCount", Json.num 2),
            ("availabilityLines", Json.arr [Json.str "2024-03-10 09:00"])]

/-- The body of the spec's normalization example (C8). -/
def C8body : Json :=
  Json.obj [("appointments",
    Json.arr [Json.str "None",
              Json.obj [("dayAbbr", Json.str "28 novembre"),
                        ("startTime", Json.str "11:15")],
              Json.str "None"])]

/-- A concrete IRMslots.py configuration. -/
def irmCfgA : IRMslots.Config :=
  { api_url := "https://www.easydoct.com/api/rdv/getRdvDayAvailabilities",
    session_key := "sk", user_session_key := "usk", aspnet_cookies := "ac",
    exam_type_id := "193", exam_id := "2702",
    patient_birth_date := "1990-01-01", poll_interval := 60,
    log_level := "INFO", log_file := "irm_slots.log",
    notifications_enabled := true, slack_token := some "tok",
    slack_channel_id := some "chan" }

/-- A second IRMslots.py configuration differing in every flag-like field. -/
def irmCfgB : IRMslots.Config :=
  { api_url := "https://other", session_key := "sk2",
    user_session_key := "usk2", aspnet_cookies := "ac2",
    exam_type_id := "1", exam_id := "2", patient_birth_date := "2000-12-31",
    poll_interval := 5, log_level := "DEBUG", log_file := "x.log",
    notifications_enabled := false, slack_token := none,
    slack_channel_id := none }

/-- An entry can only contribute a fallback line when it is a dict entry, so
the fallback emits at most as many lines as dict entries exist. -/
theorem buildLines_length_le (xs : List Json) :
    (buildLines xs).length ≤ (xs.filter isDict).length := by
  induction xs with
  | nil => simp [buildLines]
  | cons j js ih =>
      rw [buildLines, List.filterMap_cons, List.filter_cons]
      cases j with
      | obj fs =>
          cases h : entryLine (Json.obj fs) with
          | none => simpa [isDict, buildLines] using Nat.le_succ_of_le ih
          | some s => simpa [isDict, buildLines] using ih
      | null => simpa [entryLine, isDict, buildLines] using ih
      | bool b => simpa [entryLine, isDict, buildLines] using ih
      | num n => simpa [entryLine, isDict, buildLines] using ih
      | str s => simpa [entryLine, isDict, buildLines] using ih
      | arr ys => simpa [entryLine, isDict, buildLines] using ih

/-- C1: the re-login flag does not start afresh each cycle. A cycle whose
401 triggers a successful re-login but whose retried request returns 500
leaves `_login_attempted = true`; the next cycle's 401 — with auto-login
configured and a login oracle that would succeed — then performs zero login
calls, issues no retry (one request only) and fails, contradicting the
per-cycle-flag invariant and the code's own comment "not already attempted
this cycle". -/
theorem C1_flag_persists_across_cycles :
    C1cycle1.login_attempted = true ∧ C1cycle1.logins = 1 ∧
    C1cycle2.logins = 0 ∧ C1cycle2.cookies_sent.length = 1 ∧
    C1cycle2.outcome = Outcome.error :=
  ⟨rfl, rfl, rfl, rfl, rfl⟩

/-- C2 counterexample: on a body whose only appointments entry is an object
without day/time labels, the code reports `availabilityCount = 1` (it counts
every dict entry) while emitting no slot line, so `count` (1) differs from
`slots.length` (0) and from the number of label-complete entries (0). -/
theorem C2_count_exceeds_slots :
    normalizeData C2body =
      Except.ok ⟨Json.num 1, Json.arr [],
        Json.obj [("appointments", Json.arr [Json.obj [("x", Json.num 1)]]),
                  ("availabilityCount", Json.num 1)]⟩ ∧
    buildLines [Json.obj [("x", Json.num 1)]] = [] :=
  ⟨rfl, rfl⟩

/-- C2 (amended): on the fallback path (count field equal to 0, a non-empty
appointments list, falsy lines field), the normalized count is the number of
entries that are objects — labels not required — while the slots are the
`"<day> <time>"` strings of the label-complete object entries in order; hence
`slots.length ≤ count` (with a gap exactly when some object entry lacks a
label), and no entry shape makes this step raise. -/
theorem C2_fallback_count_and_lines (c0 l0 : Json) (xs : List Json)
    (hc : pyEqZero c0 = true) (hx : xs ≠ []) (hl : truthy l0 = false) :
    (normalizeData (Json.obj [("availabilityCount", c0),
        ("appointments", Json.arr xs),
        ("availabilityLines", l0)])).map (fun ns => (ns.count, ns.lines)) =
      Except.ok (Json.num ((xs.filter isDict).length),
                 Json.arr ((buildLines xs).map Json.str)) ∧
    (buildLines xs).length ≤ (xs.filter isDict).length := by
  refine ⟨?_, buildLines_length_le xs⟩
  have hxe : xs.isEmpty = false := by
    cases xs with
    | nil => exact absurd rfl hx
    | cons a l => rfl
  have hta : truthy (Json.arr xs) = true := by simp [truthy, hxe]
  simp [normalizeData, dictGet, getField, pyIter, hc, hl, hta, Except.map]

/-- C2 witness: the fallback result at a concrete body with one
label-complete object entry and one sentinel string entry. -/
theorem C2_fallback_witness :
    (normalizeData (Json.obj [("availabilityCount", Json.num 0),
        ("appointments", Json.arr C2witnessApps),
        ("availabilityLines", Json.arr [])])).map (fun ns => (ns.count, ns.lines)) =
      Except.ok (Json.num ((C2witnessApps.filter isDict).length),
                 Json.arr ((buildLines C2witnessApps).map Json.str)) ∧
    (buildLines C2witnessApps).length ≤ (C2witnessApps.filter isDict).length :=
  C2_fallback_count_and_lines (Json.num 0) (Json.arr []) C2witnessApps rfl
    (by simp [C2witnessApps]) rfl

/-- Whatever the response decides, `finish` reports exactly the requests,
login count, config and flag it was handed. -/
theorem finish_frame (cfg : Config) (flag : Bool) (sent : List String)
    (logins : Nat) (status : Nat) (body : Option Json) :
    (finish cfg flag sent logins status body).cookies_sent = sent ∧
    (finish cfg flag sent logins status body).logins = logins ∧
    (finish cfg flag sent logins status body).config = cfg ∧
    (finish cfg flag sent logins status body).login_attempted = flag := by
  unfold finish
  split
  · exact ⟨rfl, rfl, rfl, rfl⟩
  · cases body with
    | none => exact ⟨rfl, rfl, rfl, rfl⟩
    | some data =>
        cases hn : normalizeData data with
        | error e => simp [hn]
        | ok ns =>
            cases hd : decideStep ns with
            | error e => simp [hn, hd]
            | ok p => simp [hn, hd]

/-- C3: when the first request returns 401/403, the re-login succeeds, and
the retried request again returns 401/403, exactly one login call happens,
exactly two requests go out (no second retry), and the cycle terminates as
`Error` with return value `False`. -/
theorem C3_second_auth_failure_no_second_retry (cfg : Config)
    (b1 b2 : Option Json) (s1 s2 : Nat) (ck : SessionCookies)
    (h1 : s1 = 401 ∨ s1 = 403) (h2 : s2 = 401 ∨ s2 = 403)
    (hen : cfg.auto_login_enabled = true) (hcr : credsPresent cfg = true)
    (hv : ck.is_valid = true) :
    (check_availability cfg false (HttpResult.resp s1 b1)
        (HttpResult.resp s2 b2) (LoginResult.success ck)).logins = 1 ∧
    (check_availability cfg false (HttpResult.resp s1 b1)
        (HttpResult.resp s2 b2) (LoginResult.success ck)).cookies_sent.length = 2 ∧
    (check_availability cfg false (HttpResult.resp s1 b1)
        (HttpResult.resp s2 b2) (LoginResult.success ck)).outcome = Outcome.error ∧
    (check_availability cfg false (HttpResult.resp s1 b1)
        (HttpResult.resp s2 b2) (LoginResult.success ck)).retval = false := by
  rcases h1 with h | h <;> subst h <;> rcases h2 with h | h <;> subst h <;>
    simp [check_availability, hen, perform_auto_login, hcr, hv, finish]

/-- C3 witness: the 401-relogin-403 cycle evaluated on the concrete
auto-login configuration. -/
theorem C3_second_auth_failure_witness :
    (check_availability cfgAuto false (HttpResult.resp 401 none)
        (HttpResult.resp 403 none) (LoginResult.success ckNew)).logins = 1 ∧
    (check_availability cfgAuto false (HttpResult.resp 401 none)
        (HttpResult.resp 403 none) (LoginResult.success ckNew)).cookies_sent.length = 2 ∧
    (check_availability cfgAuto false (HttpResult.resp 401 none)
        (HttpResult.resp 403 none) (LoginResult.success ckNew)).outcome = Outcome.error ∧
    (check_availability cfgAuto false (HttpResult.resp 401 none)
        (HttpResult.resp 403 none) (LoginResult.success ckNew)).retval = false :=
  C3_second_auth_failure_no_second_retry cfgAuto none none 401 403 ckNew
    (Or.inl rfl) (Or.inr rfl) rfl rfl rfl

/-- C4 counterexample: the parseable body `[]` is not a JSON object, so
normalization raises `AttributeError` rather than producing `count = 0`; the
blanket handler catches it and the cycle ends as `Error` (the exception
return path), not as the no-slots outcome. -/
theorem C4_non_object_body_errors :
    normalizeData (Json.arr []) = Except.error PyExc.attributeError ∧
    (check_availability cfgManual false
        (HttpResult.resp 200 (some (Json.arr [])))
        (HttpResult.resp 200 none) LoginResult.raised).outcome = Outcome.error ∧
    (check_availability cfgManual false
        (HttpResult.resp 200 (some (Json.arr [])))
        (HttpResult.resp 200 none) LoginResult.raised).notifications = [] :=
  ⟨rfl, rfl, rfl⟩

/-- C4 (amended): every exception normalization raises on a 200 body is
caught inside the cycle — the cycle then returns `False` as `Error` with no
notification and no crash; and a 200 body that IS a JSON object carrying none
of `availabilityCount`, `appointments`, `availabilityLines` normalizes without
raising to count `0` and lines `[]`, ending the cycle `NotFound`. -/
theorem C4_malformed_body_never_escapes (cfg : Config) (flag : Bool)
    (body : Json) (r2 : HttpResult) (lr : LoginResult) :
    (∀ e, normalizeData body = Except.error e →
        check_availability cfg flag (HttpResult.resp 200 (some body)) r2 lr =
          ⟨false, Outcome.error, [], 0, [cookieHeader cfg], cfg, flag⟩) ∧
    (∀ fs, body = Json.obj fs →
        getField fs "availabilityCount" = none →
        getField fs "appointments" = none →
        getField fs "availabilityLines" = none →
        normalizeData body = Except.ok ⟨Json.num 0, Json.arr [], body⟩ ∧
        (check_availability cfg flag (HttpResult.resp 200 (some body)) r2 lr).outcome =
          Outcome.notFound ∧
        (check_availability cfg flag (HttpResult.resp 200 (some body)) r2 lr).notifications =
          []) := by
  constructor
  · intro e he
    simp [check_availability, finish, he]
  · intro fs hb h1 h2 h3
    subst hb
    have hn : normalizeData (Json.obj fs) =
        Except.ok ⟨Json.num 0, Json.arr [], Json.obj fs⟩ := by
      simp [normalizeData, dictGet, h1, h2, h3, truthy]
    refine ⟨hn, ?_, ?_⟩ <;>
      simp [check_availability, finish, hn, decideStep, pyGtZero]

/-- C5 counterexample: with base 1 and jitter 10 the code can draw a sleep of
−9 seconds — strictly below the claimed lower bound max(0, base − jitter) = 0 —
because `random.uniform(base − jitter, base + jitter)` is applied with no
clamp at 0. -/
theorem C5_no_clamp_at_zero :
    sleep_interval 1 10 0 = -9 ∧
    sleep_interval 1 10 0 < max 0 ((1 : Rat) - 10) := by
  constructor <;> norm_num [sleep_interval]

/-- C5 (amended): for every draw `u ∈ [0, 1]`, when jitter > 0 the sleep lies
in [base − jitter, base + jitter] — with no clamp at 0, so it can be negative
when jitter > base — and when jitter ≤ 0 (in particular jitter = 0) it is
exactly base. -/
theorem C5_sleep_interval_bounds (base jitter : Int) (u : Rat)
    (h0 : 0 ≤ u) (h1 : u ≤ 1) :
    (0 < jitter → (base : Rat) - (jitter : Rat) ≤ sleep_interval base jitter u ∧
        sleep_interval base jitter u ≤ (base : Rat) + (jitter : Rat)) ∧
    (jitter ≤ 0 → sleep_interval base jitter u = (base : Rat)) := by
  constructor
  · intro hj
    have hj' : (0 : Rat) < (jitter : Rat) := by exact_mod_cast hj
    rw [sleep_interval, if_pos hj]
    constructor
    · nlinarith
    · nlinarith
  · intro hj
    rw [sleep_interval, if_neg (by omega)]

/-- C5 witness: bounds at base 60, jitter 10, draw 1/2 — inside [50, 70]. -/
theorem C5_sleep_interval_witness :
    (0 < (10 : Int) → (60 : Rat) - (10 : Rat) ≤ sleep_interval 60 10 (1/2) ∧
        sleep_interval 60 10 (1/2) ≤ (60 : Rat) + (10 : Rat)) ∧
    ((10 : Int) ≤ 0 → sleep_interval 60 10 (1/2) = (60 : Rat)) :=
  C5_sleep_interval_bounds 60 10 (1/2) (by norm_num) (by norm_num)

/-- C6: when a 401/403 triggers a successful mid-cycle re-login, the retried
request's `Cookie` header is composed entirely of the newly obtained cookie
set — `SessionKey`, `UserSessionKey` and `.AspNet.Cookies` are all the new
values, never a mix with the old ones (which appear only in the first
request's header). -/
theorem C6_retry_cookie_entirely_new (cfg : Config) (b1 : Option Json)
    (s1 : Nat) (r2 : HttpResult) (ck : SessionCookies)
    (h1 : s1 = 401 ∨ s1 = 403) (hen : cfg.auto_login_enabled = true)
    (hcr : credsPresent cfg = true) (hv : ck.is_valid = true) :
    (check_availability cfg false (HttpResult.resp s1 b1) r2
        (LoginResult.success ck)).cookies_sent =
      [cookieHeader cfg,
       "SessionKey=" ++ ck.session_key ++ "; UserSessionKey=" ++
         ck.user_session_key ++ "; .AspNet.Cookies=" ++ ck.aspnet_cookies] := by
  rcases h1 with h | h <;> subst h <;> cases r2 <;>
    simp [check_availability, hen, perform_auto_login, hcr, hv,
      cookieHeader, pyOptStr, (finish_frame _ _ _ _ _ _).1]

/-- C6 witness: the retried request of the concrete 401-relogin-200 cycle
carries exactly the new cookie triple. -/
theorem C6_retry_cookie_witness :
    (check_availability cfgAuto false (HttpResult.resp 401 none)
        (HttpResult.resp 200 (some (Json.obj [])))
        (LoginResult.success ckNew)).cookies_sent =
      [cookieHeader cfgAuto,
       "SessionKey=" ++ ckNew.session_key ++ "; UserSessionKey=" ++
         ckNew.user_session_key ++ "; .AspNet.Cookies=" ++ ckNew.aspnet_cookies] :=
  C6_retry_cookie_entirely_new cfgAuto none 401
    (HttpResult.resp 200 (some (Json.obj []))) ckNew (Or.inl rfl) rfl rfl rfl

/-- C7 counterexample: the 200 body with `availabilityCount = 2` and
`availabilityLines = 5` normalizes to count 2 > 0, yet `send` is never
invoked and the cycle ends as `Error`: the logging loop over the non-iterable
lines value raises before the notification. -/
theorem C7_positive_count_without_send :
    normalizeData C7body = Except.ok ⟨Json.num 2, Json.num 5, C7body⟩ ∧
    pyGtZero (Json.num 2) = Except.ok true ∧
    (check_availability cfgManual false (HttpResult.resp 200 (some C7body))
        (HttpResult.resp 200 none) LoginResult.raised).notifications = [] ∧
    (check_availability cfgManual false (HttpResult.resp 200 (some C7body))
        (HttpResult.resp 200 none) LoginResult.raised).outcome = Outcome.error :=
  ⟨rfl, rfl, rfl, rfl⟩

/-- C7 (amended): on a 200 body whose normalization succeeds, if the count
compares greater than 0 and the lines value is iterable, `send` is invoked
exactly once with the message "Found <count> available appointment slot(s)!"
(containing the literal count) and the mutated data, and the cycle ends
`Found` returning `True`; if the count comparison yields false, `send` is
never invoked and the cycle ends `NotFound` returning `False`. -/
theorem C7_send_exactly_once_on_positive_count (cfg : Config) (flag : Bool)
    (body : Json) (r2 : HttpResult) (lr : LoginResult) (ns : NormState)
    (hn : normalizeData body = Except.ok ns) :
    (pyGtZero ns.count = Except.ok true →
      ∀ ls, pyIter ns.lines = Except.ok ls →
        (check_availability cfg flag (HttpResult.resp 200 (some body)) r2 lr).notifications =
          [(foundMessage ns.count, ns.data)] ∧
        (check_availability cfg flag (HttpResult.resp 200 (some body)) r2 lr).outcome =
          Outcome.found ∧
        (check_availability cfg flag (HttpResult.resp 200 (some body)) r2 lr).retval =
          true) ∧
    (pyGtZero ns.count = Except.ok false →
      (check_availability cfg flag (HttpResult.resp 200 (some body)) r2 lr).notifications =
        [] ∧
      (check_availability cfg flag (HttpResult.resp 200 (some body)) r2 lr).outcome =
        Outcome.notFound ∧
      (check_availability cfg flag (HttpResult.resp 200 (some body)) r2 lr).retval =
        false) := by
  constructor
  · intro hgt ls hit
    refine ⟨?_, ?_, ?_⟩ <;>
      simp [check_availability, finish, hn, decideStep, hgt, hit]
  · intro hgt
    refine ⟨?_, ?_, ?_⟩ <;>
      simp [check_availability, finish, hn, decideStep, hgt]

/-- C7 witness: a concrete positive-count body sends exactly one notification
and ends `Found`. -/
theorem C7_send_exactly_once_witness :
    (check_availability cfgManual false (HttpResult.resp 200 (some C7wbody))
        (HttpResult.resp 200 none) LoginResult.raised).notifications =
      [(foundMessage (Json.num 2), C7wbody)] ∧
    (check_availability cfgManual false (HttpResult.resp 200 (some C7wbody))
        (HttpResult.resp 200 none) LoginResult.raised).outcome = Outcome.found ∧
    (check_availability cfgManual false (HttpResult.resp 200 (some C7wbody))
        (HttpResult.resp 200 none) LoginResult.raised).retval = true :=
  (C7_send_exactly_once_on_positive_count cfgManual false C7wbody
      (HttpResult.resp 200 none) LoginResult.raised
      ⟨Json.num 2, Json.arr [Json.str "2024-03-10 09:00"], C7wbody⟩ rfl).1
    rfl [Json.str "2024-03-10 09:00"] rfl

/-- C8: the spec's normalization example. The two non-object sentinel entries
are discarded silently, the surviving entry is counted and formatted as
"<day> <time>", so the body normalizes to count 1 and the single slot line
"28 novembre 11:15" (both written back into the data). -/
theorem C8_example_normalization :
    normalizeData C8body =
      Except.ok ⟨Json.num 1, Json.arr [Json.str "28 novembre 11:15"],
        Json.obj [("appointments",
          Json.arr [Json.str "None",
                    Json.obj [("dayAbbr", Json.str "28 novembre"),
                              ("startTime", Json.str "11:15")],
                    Json.str "None"]),
         ("availabilityCount", Json.num 1),
         ("availabilityLines", Json.arr [Json.str "28 novembre 11:15"])]⟩ :=
  rfl

/-- C9 counterexample: flipping every flag-like configuration field changes
nothing — src/src/main.py's loop continues after a `Found` cycle under both
configurations, and IRMslots.py's loop breaks on `Found` under both. The
choice is hardcoded per script; no configuration flag selects it. -/
theorem C9_policy_insensitive_to_config :
    run_found_policy cfgAuto true = LoopControl.continueLoop ∧
    run_found_policy cfgManual true = LoopControl.continueLoop ∧
    IRMslots.run_found_policy irmCfgA true = LoopControl.breakLoop ∧
    IRMslots.run_found_policy irmCfgB true = LoopControl.breakLoop :=
  ⟨rfl, rfl, rfl, rfl⟩

/-- C9 (amended): the `Found` policy is not configurable — it is a constant
of each script. For every configuration, src/src/main.py's run loop continues
monitoring after any cycle result, and for every configuration IRMslots.py's
run loop breaks on a `Found` result. -/
theorem C9_policy_hardcoded_per_script :
    (∀ (c : Config) (found : Bool),
        run_found_policy c found = LoopControl.continueLoop) ∧
    (∀ c : IRMslots.Config,
        IRMslots.run_found_policy c true = LoopControl.breakLoop) :=
  ⟨fun _ _ => rfl, fun _ => rfl⟩

/-- C10: with auto-login disabled, a 401/403 response ends the cycle
immediately as a failure: zero login calls, exactly the one original request
(no retry), the re-login flag left untouched, outcome `Error`, return value
`False`. -/
theorem C10_auth_error_without_autologin_fails_fast (cfg : Config)
    (flag : Bool) (s : Nat) (b : Option Json) (r2 : HttpResult)
    (lr : LoginResult) (hs : s = 401 ∨ s = 403)
    (hen : cfg.auto_login_enabled = false) :
    (check_availability cfg flag (HttpResult.resp s b) r2 lr).logins = 0 ∧
    (check_availability cfg flag (HttpResult.resp s b) r2 lr).cookies_sent =
      [cookieHeader cfg] ∧
    (check_availability cfg flag (HttpResult.resp s b) r2 lr).login_attempted =
      flag ∧
    (check_availability cfg flag (HttpResult.resp s b) r2 lr).outcome =
      Outcome.error ∧
    (check_availability cfg flag (HttpResult.resp s b) r2 lr).retval = false := by
  rcases hs with h | h <;> subst h <;> simp [check_availability, hen]

/-- C10 witness: a 403 on the concrete manual-cookie configuration. -/
theorem C10_auth_error_witness :
    (check_availability cfgManual false (HttpResult.resp 403 none)
        (HttpResult.resp 200 none) LoginResult.raised).logins = 0 ∧
    (check_availability cfgManual false (HttpResult.resp 403 none)
        (HttpResult.resp 200 none) LoginResult.raised).cookies_sent =
      [cookieHeader cfgManual] ∧
    (check_availability cfgManual false (HttpResult.resp 403 none)
        (HttpResult.resp 200 none) LoginResult.raised).login_attempted = false ∧
    (check_availability cfgManual false (HttpResult.resp 403 none)
        (HttpResult.resp 200 none) LoginResult.raised).outcome = Outcome.error ∧
    (check_availability cfgManual false (HttpResult.resp 403 none)
        (HttpResult.resp 200 none) LoginResult.raised).retval = false :=
  C10_auth_error_without_autologin_fails_fast cfgManual false 403 none
    (HttpResult.resp 200 none) LoginResult.raised (Or.inr rfl) rfl

end IRM
